import Mathlib

/-!
Verification of the `SeizureSalad` EDF converter (`src/edf_converter.py`)
against its natural-language specification.

The repository is a single-file wrapper (`EDFConverter`) around the external
`mne` library: `mne.io.read_raw_edf` performs the actual EDF decoding and
hands the wrapper a rectangular `(n_channels, n_samples)` array together with
a shared time axis (this shape is asserted by the wrapper's own docstring on
`get_data` and is relied upon by the `data[:, i]` indexing in `to_csv`).
The decoder core described by the specification (HeaderParser, RecordDecoder,
Calibrator, SignalStore) is absent from the repository; where a claim depends
on it, the missing part is modelled from the specification, and such
definitions say so in their doc comments.  Machine reals are modelled as `ℚ`.
-/

/-- Per-channel header fields (the spec's `ChannelDescriptor`), restricted to
the fields the claims use. -/
structure ChannelDescriptor where
  label : String
  physical_min : ℚ
  physical_max : ℚ
  digital_min : ℚ
  digital_max : ℚ
  samples_per_record : ℕ
deriving Repr, DecidableEq, Inhabited

/-- Modelled from the spec: the Calibrator, absent from `src/` (decoding is
performed inside the external `mne` loader).  Pure linear map
`physical = physical_min + (digital - digital_min) * (physical_max - physical_min) / (digital_max - digital_min)`,
applied with the channel's own min/max pair. -/
def to_physical (ch : ChannelDescriptor) (d : ℚ) : ℚ :=
  ch.physical_min +
    (d - ch.digital_min) * (ch.physical_max - ch.physical_min) /
      (ch.digital_max - ch.digital_min)

/-- Modelled from the spec: the inverse of the calibration map (the encoding
direction of the round-trip property; no encoder exists in `src/`). -/
def to_digital (ch : ChannelDescriptor) (p : ℚ) : ℚ :=
  ch.digital_min +
    (p - ch.physical_min) * (ch.digital_max - ch.digital_min) /
      (ch.physical_max - ch.physical_min)

/-- Modelled from the spec: an EDF file after header parsing, reduced to what
the claims need.  `records` holds, per data record, one digital sample list
per channel (channel-major interleave order). -/
structure EDFFile where
  channels : List ChannelDescriptor
  record_duration : ℚ
  records : List (List (List ℤ))
deriving Repr, DecidableEq, Inhabited

/-- Highest `samples_per_record` among the file's channels. -/
def maxSpr (f : EDFFile) : ℕ :=
  f.channels.foldr (fun c acc => max c.samples_per_record acc) 0

/-- The in-memory object the wrapper stores as `self.raw` (the `mne.io.Raw`
object): channel names, a rectangular physical-sample array of shape
`(n_channels, n_samples)` (asserted by `get_data`'s docstring), a sampling
frequency and a measurement date.  The time axis is derived, as in `mne`,
from the sample count and the sampling frequency. -/
structure Raw where
  chNames : List String
  data : List (List ℚ)
  sfreq : ℚ
  nTimes : ℕ
  measDate : Option String
deriving Repr, DecidableEq, Inhabited

/-- The `raw.times` array: `k / sfreq` for `k = 0, …, nTimes - 1`. -/
def Raw.times (r : Raw) : List ℚ :=
  (List.range r.nTimes).map (fun (k : ℕ) => (k : ℚ) / r.sfreq)

/-- Zero-order-hold expansion of one record's chunk for a channel with
`s` samples per record up to the record's full width `m`. -/
def upsampleChunk (m s : ℕ) (chunk : List ℚ) : List ℚ :=
  (List.range m).map (fun k => chunk.getD (k * s / m) 0)

/-- Modelled from the spec: the external loader `mne.io.read_raw_edf`, absent
from `src/`.  It decodes and calibrates every record and, as required by the
wrapper's own contract (`get_data` returns shape `(n_channels, n_samples)`;
`to_csv` reads `data[:, i]` for every time index), brings every channel to the
common width `maxSpr` per record — lower-rate channels are expanded
(zero-order hold) rather than kept at their own sample count.  The sampling
frequency is the highest per-record rate. -/
def read_raw_edf (f : EDFFile) : Raw :=
  let m := maxSpr f
  { chNames := f.channels.map (fun c => c.label)
    data := (List.range f.channels.length).map (fun ci =>
      let ch := f.channels.getD ci default
      (f.records.map (fun rec =>
        upsampleChunk m ch.samples_per_record
          (((rec.getD ci []).map (fun (d : ℤ) => to_physical ch (d : ℚ)))))).flatten)
    sfreq := (m : ℚ) / f.record_duration
    nTimes := m * f.records.length
    measDate := none }

/-- Modelled from the spec: the `SignalStore` of the design document, absent
from `src/` — each channel keeps exactly its own
`samples_per_record × n_records` calibrated samples (ragged, no resampling),
and the shared time axis has the maximum channel length.  Used to compare the
spec's store against what the code actually holds. -/
structure SignalStore where
  channels : List (ChannelDescriptor × List ℚ)
  timeAxis : List ℚ
deriving Repr, DecidableEq, Inhabited

/-- Modelled from the spec: assembly of the spec's `SignalStore` from a file. -/
def specSignalStore (f : EDFFile) : SignalStore :=
  { channels := (List.range f.channels.length).map (fun ci =>
      let ch := f.channels.getD ci default
      (ch, (f.records.map (fun rec =>
        (rec.getD ci []).map (fun (d : ℤ) => to_physical ch (d : ℚ)))).flatten))
    timeAxis := (List.range (maxSpr f * f.records.length)).map
      (fun (k : ℕ) => (k : ℚ) * f.record_duration / (maxSpr f : ℚ)) }

/-- Error values raised by the wrapper (Python exception classes actually used
by `src/edf_converter.py`: `FileNotFoundError`, `ValueError`, plus the
`OSError`/`IndexError` that the runtime can raise inside an exporter or
`get_info`), each carrying its message. -/
inductive PyError where
  | file_not_found_error : String → PyError
  | value_error : String → PyError
  | os_error : String → PyError
  | index_error : String → PyError
deriving Repr, DecidableEq

/-- The message raised for an absent channel label: it names the offending
label and lists the valid channel labels
(`Channel '<x>' not found. Available channels: <list>` in the source). -/
def unknown_channel_message (x : String) (valid : List String) : String :=
  "Channel " ++ x ++ " not found. Available channels: " ++
    String.intercalate ", " valid

/-- The spec's abstract `UnknownChannelError` condition, as realised by the
code: a `ValueError` whose message names the offending label and lists the
valid labels. -/
def isUnknownChannelError (e : PyError) (x : String) (valid : List String) : Prop :=
  e = .value_error (unknown_channel_message x valid)

instance (e : PyError) (x : String) (valid : List String) :
    Decidable (isUnknownChannelError e x valid) := by
  unfold isUnknownChannelError; infer_instance

/-- The wrapper object: the file path and the fully loaded `mne.io.Raw`. -/
structure EDFConverter where
  filepath : String
  raw : Raw
deriving Repr, DecidableEq

/-- Embedding of `EDFConverter.__init__`: `file_exists` models
`self.filepath.exists()` and `read_result` the outcome of
`mne.io.read_raw_edf` (fully decoded `Raw`, or the exception message).  A
converter is only ever produced from a successful, complete read. -/
def EDFConverter.init (filepath : String) (file_exists : Bool)
    (read_result : Except String Raw) : Except PyError EDFConverter :=
  if !file_exists then
    .error (.file_not_found_error ("EDF file not found: " ++ filepath))
  else
    match read_result with
    | .error e => .error (.value_error ("Failed to read EDF file: " ++ e))
    | .ok r => .ok { filepath := filepath, raw := r }

/-- Modelled from the spec: the external channel selector `mne.pick_channels`,
absent from `src/`.  Per the spec's exporter contract it restricts to the
requested labels preserving the caller-given order and fails on an unknown
label, naming it and listing the valid ones. -/
def pick_channels (ch_names : List String) (incl : List String) :
    Except PyError (List ℕ) :=
  match incl.find? (fun x => ! ch_names.contains x) with
  | some x => .error (.value_error (unknown_channel_message x ch_names))
  | none => .ok (incl.map (fun x => ch_names.indexOf x))

/-- Embedding of `EDFConverter.get_data`: with a truthy (non-empty) channel
list it picks those channels, otherwise it returns all of `raw.data`; the
shared `raw.times` axis is returned alongside. -/
def EDFConverter.get_data (c : EDFConverter) (channels : Option (List String)) :
    Except PyError (List (List ℚ) × List ℚ) :=
  match channels with
  | some (ch0 :: rest) => do
      let picks ← pick_channels c.raw.chNames (ch0 :: rest)
      pure (picks.map (fun i => c.raw.data.getD i []), c.raw.times)
  | _ => pure (c.raw.data, c.raw.times)

/-- The summary mapping returned by `EDFConverter.get_info`. -/
structure InfoDict where
  filename : String
  n_channels : ℕ
  channel_names : List String
  sampling_rate : ℚ
  duration_seconds : ℚ
  n_samples : ℕ
  measurement_date : Option String
deriving Repr, DecidableEq

/-- Embedding of `EDFConverter.get_info`: `duration_seconds` is
`raw.times[-1]` (the last time stamp; an `IndexError` on an empty axis) and
`n_samples` is `len(raw.times)`. -/
def EDFConverter.get_info (c : EDFConverter) : Except PyError InfoDict :=
  if c.raw.nTimes = 0 then
    .error (.index_error "index -1 is out of bounds for axis 0 with size 0")
  else
    .ok { filename := c.filepath
          n_channels := c.raw.chNames.length
          channel_names := c.raw.chNames
          sampling_rate := c.raw.sfreq
          duration_seconds := c.raw.times.getLastD 0
          n_samples := c.raw.times.length
          measurement_date := c.raw.measDate }

/-- The CSV document written by `to_csv`: a header row of labels and one row
per time-axis sample.  A cell is `some q` when the code writes the number `q`;
`none` stands for an empty/missing cell, which the claims speak of. -/
structure CSVDoc where
  header : List String
  rows : List (List (Option ℚ))
deriving Repr, DecidableEq

/-- Embedding of `EDFConverter.to_csv` (the document it writes): header is
`Time` plus the channel names (the caller's list when truthy, else all), and
row `i` is `times[i]` followed by `data[:, i]` — one numeric cell per channel
at every time index. -/
def EDFConverter.to_csv (c : EDFConverter) (channels : Option (List String))
    (include_time : Bool) : Except PyError CSVDoc := do
  let dt ← c.get_data channels
  let ch_names := match channels with
    | some (ch0 :: rest) => ch0 :: rest
    | _ => c.raw.chNames
  pure { header := (if include_time then ["Time"] else []) ++ ch_names
         rows := (List.range dt.2.length).map (fun i =>
           (if include_time then [some (dt.2.getD i 0)] else []) ++
             dt.1.map (fun row => some (row.getD i 0))) }

/-- Embedding of `EDFConverter.to_csv` including the file write: `writable`
models whether `open(output_path, 'w')` succeeds.  The converter state after
the call is returned alongside; nothing in the source mutates it. -/
def EDFConverter.to_csv_run (c : EDFConverter) (channels : Option (List String))
    (include_time : Bool) (writable : Bool) :
    Except PyError CSVDoc × EDFConverter :=
  match c.to_csv channels include_time with
  | .error e => (.error e, c)
  | .ok doc =>
      if writable then (.ok doc, c)
      else (.error (.os_error "destination not writable"), c)

/-- The JSON document written by `to_json`: optional metadata, the time axis,
and one entry per channel name. -/
structure JSONDoc where
  metadata : Option InfoDict
  times : List ℚ
  channels : List (String × List ℚ)
deriving Repr, DecidableEq

/-- Embedding of `EDFConverter.to_json` (the document it writes). -/
def EDFConverter.to_json (c : EDFConverter) (channels : Option (List String))
    (include_metadata : Bool) : Except PyError JSONDoc := do
  let dt ← c.get_data channels
  let ch_names := match channels with
    | some (ch0 :: rest) => ch0 :: rest
    | _ => c.raw.chNames
  let md ← if include_metadata then do
      let i ← c.get_info
      pure (some i)
    else pure (none : Option InfoDict)
  pure { metadata := md
         times := dt.2
         channels := (List.range ch_names.length).map (fun i =>
           (ch_names.getD i "", dt.1.getD i [])) }

/-- Embedding of `EDFConverter.to_json` including the file write: `writable`
models whether `open(output_path, 'w')` succeeds.  The converter state after
the call is returned alongside; nothing in the source mutates it. -/
def EDFConverter.to_json_run (c : EDFConverter) (channels : Option (List String))
    (include_metadata : Bool) (writable : Bool) :
    Except PyError JSONDoc × EDFConverter :=
  match c.to_json channels include_metadata with
  | .error e => (.error e, c)
  | .ok doc =>
      if writable then (.ok doc, c)
      else (.error (.os_error "destination not writable"), c)

/-- The array archive written by `to_numpy`: exactly the four keyword
arguments of `np.savez_compressed` — a single stacked `data` matrix, the
`times` axis, the `channel_names` list and the `sampling_rate` scalar. -/
structure NPZArchive where
  data : List (List ℚ)
  times : List ℚ
  channel_names : List String
  sampling_rate : ℚ
deriving Repr, DecidableEq

/-- The names of the arrays stored in the archive (the keyword argument names
passed to `np.savez_compressed` in the source). -/
def npz_entry_names : List String :=
  ["data", "times", "channel_names", "sampling_rate"]

/-- Embedding of `EDFConverter.to_numpy` (the archive it writes). -/
def EDFConverter.to_numpy (c : EDFConverter) (channels : Option (List String)) :
    Except PyError NPZArchive := do
  let dt ← c.get_data channels
  let ch_names := match channels with
    | some (ch0 :: rest) => ch0 :: rest
    | _ => c.raw.chNames
  pure { data := dt.1
         times := dt.2
         channel_names := ch_names
         sampling_rate := c.raw.sfreq }

/-- Embedding of `EDFConverter.to_numpy` including the file write: `writable`
models whether `np.savez_compressed` can write `output_path`.  The converter
state after the call is returned alongside; nothing in the source mutates
it. -/
def EDFConverter.to_numpy_run (c : EDFConverter) (channels : Option (List String))
    (writable : Bool) : Except PyError NPZArchive × EDFConverter :=
  match c.to_numpy channels with
  | .error e => (.error e, c)
  | .ok arch =>
      if writable then (.ok arch, c)
      else (.error (.os_error "destination not writable"), c)

/-- Embedding of `EDFConverter.get_channel_data`: raises `ValueError` naming
the label and listing the valid channels when the label is absent, otherwise
returns that channel's row and the times. -/
def EDFConverter.get_channel_data (c : EDFConverter) (channel_name : String) :
    Except PyError (List ℚ × List ℚ) :=
  if c.raw.chNames.contains channel_name then do
    let dt ← c.get_data (some [channel_name])
    pure (dt.1.getD 0 [], dt.2)
  else
    .error (.value_error (unknown_channel_message channel_name c.raw.chNames))

/-- The spec's worked example, channel A: 4 samples per record, identity
calibration (physical and digital ranges both `[-100, 100]`). -/
def chanA : ChannelDescriptor :=
  { label := "A", physical_min := -100, physical_max := 100
    digital_min := -100, digital_max := 100, samples_per_record := 4 }

/-- The spec's worked example, channel B: 2 samples per record. -/
def chanB : ChannelDescriptor :=
  { label := "B", physical_min := -100, physical_max := 100
    digital_min := -100, digital_max := 100, samples_per_record := 2 }

/-- The spec's worked example file: two channels with `samples_per_record`
4 and 2, record duration 1 s, three data records. -/
def exampleFile : EDFFile :=
  { channels := [chanA, chanB]
    record_duration := 1
    records := [[[1, 2, 3, 4], [10, 20]],
                [[5, 6, 7, 8], [30, 40]],
                [[9, 10, 11, 12], [50, 60]]] }

/-- The converter holding the example file as loaded by the wrapper. -/
def exampleConverter : EDFConverter :=
  { filepath := "example.edf", raw := read_raw_edf exampleFile }

example : (read_raw_edf exampleFile).chNames = ["A", "B"] := by decide
example : (read_raw_edf exampleFile).nTimes = 12 := by decide
example : (read_raw_edf exampleFile).data.map List.length = [12, 12] := by
  simp [read_raw_edf, exampleFile, chanA, chanB, maxSpr, upsampleChunk, List.range_succ]
example : (read_raw_edf exampleFile).data =
    [[1, 2, 3, 4, 5, 6, 7, 8, 9, 10, 11, 12],
     [10, 10, 20, 20, 30, 30, 40, 40, 50, 50, 60, 60]] := by
  simp [read_raw_edf, exampleFile, chanA, chanB, maxSpr, upsampleChunk, to_physical,
    List.range_succ]
example : (specSignalStore exampleFile).channels.map (fun p => p.2.length) = [12, 6] := by
  simp [specSignalStore, exampleFile, chanA, chanB, List.range_succ]
example : (specSignalStore exampleFile).channels.map (fun p => p.2) =
    [[1, 2, 3, 4, 5, 6, 7, 8, 9, 10, 11, 12], [10, 20, 30, 40, 50, 60]] := by
  simp [specSignalStore, exampleFile, chanA, chanB, to_physical, List.range_succ]

lemma getD_map_range {α : Type} (f : ℕ → α) (d : α) (n i : ℕ) (h : i < n) :
    ((List.range n).map f).getD i d = f i := by
  simp [List.getD_eq_getElem?_getD, List.getElem?_map, List.getElem?_range h]

lemma getD_map_of_lt {α β : Type} (f : α → β) (l : List α) (i : ℕ)
    (h : i < l.length) (d : β) (e : α) :
    (l.map f).getD i d = f (l.getD i e) := by
  simp [List.getD_eq_getElem?_getD, List.getElem?_map, List.getElem?_eq_getElem h]

/-- C2: decoding applies the linear calibration map with the channel's own
min/max pair, and on any calibratable channel (non-degenerate digital and
physical ranges) encoding a list of digital values and decoding them — in
either composition order — reproduces the original values exactly (the
rational model has no floating-point rounding, so the tolerance is zero). -/
theorem c2_calibration_roundtrip (ch : ChannelDescriptor)
    (hd : ch.digital_max ≠ ch.digital_min)
    (hp : ch.physical_max ≠ ch.physical_min) :
    (∀ d : ℚ, to_physical ch d =
        ch.physical_min + (d - ch.digital_min) *
          (ch.physical_max - ch.physical_min) /
          (ch.digital_max - ch.digital_min)) ∧
    (∀ ds : List ℚ, (ds.map (to_physical ch)).map (to_digital ch) = ds) ∧
    (∀ ps : List ℚ, (ps.map (to_digital ch)).map (to_physical ch) = ps) := by
  have hd2 : ch.digital_max - ch.digital_min ≠ 0 := sub_ne_zero.mpr hd
  have hp2 : ch.physical_max - ch.physical_min ≠ 0 := sub_ne_zero.mpr hp
  have key1 : ∀ d : ℚ, to_digital ch (to_physical ch d) = d := by
    intro d
    unfold to_physical to_digital
    field_simp
    ring
  have key2 : ∀ p : ℚ, to_physical ch (to_digital ch p) = p := by
    intro p
    unfold to_physical to_digital
    field_simp
    ring
  refine ⟨fun d => rfl, fun ds => ?_, fun ps => ?_⟩
  · simp [List.map_map, Function.comp_def, key1]
  · simp [List.map_map, Function.comp_def, key2]

theorem c2_witness :
    ((100 : ℚ) ≠ (-100 : ℚ)) ∧ ((100 : ℚ) ≠ (-100 : ℚ)) ∧
    (([(-5 : ℚ), 0, 7].map (to_physical chanA)).map (to_digital chanA) =
      [(-5 : ℚ), 0, 7]) :=
  ⟨by norm_num, by norm_num,
    (c2_calibration_roundtrip chanA (by norm_num [chanA])
      (by norm_num [chanA])).2.1 [(-5 : ℚ), 0, 7]⟩

/-- C4: a failed decode aborts the whole load — when the loader raises, the
constructor re-raises `ValueError` and no converter object is produced; a
converter is only ever returned holding exactly the loader's fully decoded
result, so no partially-populated store is observable.  The missing-file
branch likewise yields only an error. -/
theorem c4_no_partial_store (fp : String) (res : Except String Raw) :
    (∀ e, res = .error e →
      EDFConverter.init fp true res =
        .error (.value_error ("Failed to read EDF file: " ++ e))) ∧
    (∀ c, EDFConverter.init fp true res = .ok c → res = .ok c.raw) ∧
    (EDFConverter.init fp false res =
      .error (.file_not_found_error ("EDF file not found: " ++ fp))) := by
  refine ⟨?_, ?_, ?_⟩
  · intro e he
    subst he
    rfl
  · intro c hc
    cases res with
    | error e => simp [EDFConverter.init] at hc
    | ok r =>
        simp [EDFConverter.init] at hc
        rw [← hc]
  · rfl

theorem c4_witness :
    EDFConverter.init "missing.edf" true (.error "bad header") =
      .error (.value_error ("Failed to read EDF file: " ++ "bad header")) :=
  (c4_no_partial_store "missing.edf" (.error "bad header")).1 "bad header" rfl

/-- C9: `get_info` reports `duration_seconds` as the time stamp of the last
sample, `(n_samples - 1) / sampling_rate` — not the covered duration
`n_samples / sampling_rate` — and reports `n_samples` as the length of the
time axis. -/
theorem c9_duration_is_last_timestamp (c : EDFConverter)
    (h : 1 ≤ c.raw.nTimes) :
    ∃ i, c.get_info = .ok i ∧
      i.duration_seconds = ((c.raw.nTimes : ℚ) - 1) / c.raw.sfreq ∧
      i.n_samples = c.raw.times.length ∧
      (c.raw.sfreq ≠ 0 →
        i.duration_seconds ≠ (c.raw.nTimes : ℚ) / c.raw.sfreq) := by
  obtain ⟨m, hm⟩ : ∃ m, c.raw.nTimes = m + 1 :=
    ⟨c.raw.nTimes - 1, (Nat.succ_pred_eq_of_pos h).symm⟩
  have hne : ¬ c.raw.nTimes = 0 := by omega
  have hlast : c.raw.times.getLastD 0 = ((c.raw.nTimes : ℚ) - 1) / c.raw.sfreq := by
    unfold Raw.times
    rw [hm, List.range_succ, List.map_append]
    simp [List.getLastD_concat]
  unfold EDFConverter.get_info
  rw [if_neg hne]
  refine ⟨_, rfl, hlast, rfl, ?_⟩
  intro hf
  simp only [hlast]
  intro hcontra
  field_simp at hcontra

theorem c9_witness :
    (1 ≤ exampleConverter.raw.nTimes) ∧
    (∃ i, exampleConverter.get_info = .ok i ∧
      i.duration_seconds =
        ((exampleConverter.raw.nTimes : ℚ) - 1) / exampleConverter.raw.sfreq ∧
      i.n_samples = exampleConverter.raw.times.length ∧
      (exampleConverter.raw.sfreq ≠ 0 →
        i.duration_seconds ≠
          (exampleConverter.raw.nTimes : ℚ) / exampleConverter.raw.sfreq)) :=
  ⟨by decide, c9_duration_is_last_timestamp exampleConverter (by decide)⟩

/-- C10: a truthiness check (`if channels:`) governs the filter in `get_data`
and in every exporter, so an empty filter list behaves exactly like passing no
filter: all channels are returned, not zero channels. -/
theorem c10_empty_filter_means_all (c : EDFConverter) (it im : Bool) :
    c.get_data (some []) = c.get_data none ∧
    c.to_csv (some []) it = c.to_csv none it ∧
    c.to_json (some []) im = c.to_json none im ∧
    c.to_numpy (some []) = c.to_numpy none ∧
    c.get_data none = .ok (c.raw.data, c.raw.times) :=
  ⟨rfl, rfl, rfl, rfl, rfl⟩

lemma pick_channels_ok (names ls : List String) (h : ∀ x ∈ ls, x ∈ names) :
    pick_channels names ls = .ok (ls.map (fun x => names.indexOf x)) := by
  unfold pick_channels
  rw [List.find?_eq_none.mpr]
  intro x hx
  simp [h x hx]

lemma pick_channels_err (names ls : List String) (h : ∃ x ∈ ls, x ∉ names) :
    ∃ y ∈ ls, y ∉ names ∧
      pick_channels names ls =
        .error (.value_error (unknown_channel_message y names)) := by
  have hs : (ls.find? (fun x => ! names.contains x)).isSome := by
    rw [List.find?_isSome]
    obtain ⟨x, hx, hnx⟩ := h
    exact ⟨x, hx, by simp [hnx]⟩
  obtain ⟨y, hy⟩ := Option.isSome_iff_exists.mp hs
  refine ⟨y, List.mem_of_find?_eq_some hy, ?_, ?_⟩
  · have := List.find?_some hy
    simpa using this
  · unfold pick_channels
    rw [hy]

lemma get_data_cons_eq (c : EDFConverter) (ch0 : String) (rest : List String) :
    c.get_data (some (ch0 :: rest)) =
      (pick_channels c.raw.chNames (ch0 :: rest)).bind
        (fun picks => pure (picks.map (fun i => c.raw.data.getD i []), c.raw.times)) :=
  rfl

lemma to_csv_err (c : EDFConverter) (chs : Option (List String)) (it : Bool)
    (e : PyError) (h : c.get_data chs = .error e) : c.to_csv chs it = .error e := by
  unfold EDFConverter.to_csv
  rw [h]
  rfl

lemma to_json_err (c : EDFConverter) (chs : Option (List String)) (im : Bool)
    (e : PyError) (h : c.get_data chs = .error e) : c.to_json chs im = .error e := by
  unfold EDFConverter.to_json
  rw [h]
  rfl

lemma to_numpy_err (c : EDFConverter) (chs : Option (List String))
    (e : PyError) (h : c.get_data chs = .error e) : c.to_numpy chs = .error e := by
  unfold EDFConverter.to_numpy
  rw [h]
  rfl

/-- C3: a channel-filter list containing any label absent from the recording
makes `get_data` — and through it every exporter — fail with the
unknown-channel error (a `ValueError` in the source) naming an offending
label and listing the valid labels, even when the other requested labels are
valid; `get_channel_data` with an absent label fails the same way. -/
theorem c3_unknown_label_fails (c : EDFConverter) (ls : List String)
    (hbad : ∃ x ∈ ls, x ∉ c.raw.chNames) :
    (∃ y ∈ ls, y ∉ c.raw.chNames ∧ ∃ e : PyError,
      isUnknownChannelError e y c.raw.chNames ∧
      c.get_data (some ls) = .error e ∧
      (∀ it, c.to_csv (some ls) it = .error e) ∧
      (∀ im, c.to_json (some ls) im = .error e) ∧
      c.to_numpy (some ls) = .error e) ∧
    (∀ z, z ∉ c.raw.chNames → ∃ e : PyError,
      isUnknownChannelError e z c.raw.chNames ∧
      c.get_channel_data z = .error e) := by
  constructor
  · cases ls with
    | nil => simp at hbad
    | cons ch0 rest =>
        obtain ⟨y, hy, hny, hpick⟩ := pick_channels_err c.raw.chNames (ch0 :: rest) hbad
        have hget : c.get_data (some (ch0 :: rest)) =
            .error (.value_error (unknown_channel_message y c.raw.chNames)) := by
          rw [get_data_cons_eq, hpick]
          rfl
        exact ⟨y, hy, hny, _, rfl, hget,
          fun it => to_csv_err c _ it _ hget,
          fun im => to_json_err c _ im _ hget,
          to_numpy_err c _ _ hget⟩
  · intro z hz
    refine ⟨_, rfl, ?_⟩
    unfold EDFConverter.get_channel_data
    rw [if_neg]
    simpa using hz

theorem c3_witness :
    (∃ x ∈ (["A", "C"] : List String), x ∉ exampleConverter.raw.chNames) ∧
    ((∃ y ∈ (["A", "C"] : List String), y ∉ exampleConverter.raw.chNames ∧
      ∃ e : PyError,
      isUnknownChannelError e y exampleConverter.raw.chNames ∧
      exampleConverter.get_data (some ["A", "C"]) = .error e ∧
      (∀ it, exampleConverter.to_csv (some ["A", "C"]) it = .error e) ∧
      (∀ im, exampleConverter.to_json (some ["A", "C"]) im = .error e) ∧
      exampleConverter.to_numpy (some ["A", "C"]) = .error e) ∧
    (∀ z, z ∉ exampleConverter.raw.chNames → ∃ e : PyError,
      isUnknownChannelError e z exampleConverter.raw.chNames ∧
      exampleConverter.get_channel_data z = .error e)) :=
  ⟨by decide, c3_unknown_label_fails exampleConverter ["A", "C"] (by decide)⟩

/-- The samples the rectangular store holds for a given label (the row at the
label's index in `raw.data`, as produced by picking that label). -/
def Raw.channel_samples (r : Raw) (x : String) : List ℚ :=
  r.data.getD (r.chNames.indexOf x) []

/-- C5: with a non-empty filter of valid labels, every export sees the
channels in the caller-given order, each paired with its own samples:
`get_data` returns the rows in caller order (each row being that label's
stored samples); the CSV header lists `Time` followed by the labels in the
same order, the column under the label at position `j` holding, at every time
index, that label's stored sample; the JSON channels object pairs, at every
position, the caller's label with that label's stored samples; and the array
archive's `channel_names` is the caller's list with the stacked `data` rows
in the same order, row `j` being the samples of the label at position `j`. -/
theorem c5_caller_order (c : EDFConverter) (ls : List String)
    (hne : ls ≠ []) (hval : ∀ x ∈ ls, x ∈ c.raw.chNames) :
    c.get_data (some ls) = .ok (ls.map c.raw.channel_samples, c.raw.times) ∧
    (∃ doc, c.to_csv (some ls) true = .ok doc ∧
      doc.header = "Time" :: ls ∧
      doc.rows.length = c.raw.times.length ∧
      ∀ i j, i < c.raw.times.length → j < ls.length →
        (doc.rows.getD i []).getD (j + 1) none =
          some ((c.raw.channel_samples (ls.getD j "")).getD i 0)) ∧
    (∃ jdoc, c.to_json (some ls) false = .ok jdoc ∧
      jdoc.times = c.raw.times ∧
      jdoc.channels.length = ls.length ∧
      ∀ j, j < ls.length →
        jdoc.channels.getD j ("", []) =
          (ls.getD j "", c.raw.channel_samples (ls.getD j ""))) ∧
    (∃ arch, c.to_numpy (some ls) = .ok arch ∧
      arch.channel_names = ls ∧
      arch.times = c.raw.times ∧
      arch.data = ls.map c.raw.channel_samples ∧
      ∀ j, j < ls.length →
        arch.data.getD j [] = c.raw.channel_samples (ls.getD j "")) := by
  obtain ⟨ch0, rest, rfl⟩ : ∃ a t, ls = a :: t := by
    cases ls with
    | nil => exact absurd rfl hne
    | cons a t => exact ⟨a, t, rfl⟩
  have hpick := pick_channels_ok c.raw.chNames (ch0 :: rest) hval
  have hrows : ((ch0 :: rest).map (fun x => c.raw.chNames.indexOf x)).map
      (fun i => c.raw.data.getD i []) = (ch0 :: rest).map c.raw.channel_samples := by
    rw [List.map_map]
    rfl
  have hget : c.get_data (some (ch0 :: rest)) =
      .ok ((ch0 :: rest).map c.raw.channel_samples, c.raw.times) := by
    rw [get_data_cons_eq, hpick]
    show Except.ok (((ch0 :: rest).map (fun x => c.raw.chNames.indexOf x)).map
      (fun i => c.raw.data.getD i []), c.raw.times) = _
    rw [hrows]
  have hcsv : c.to_csv (some (ch0 :: rest)) true =
      .ok { header := "Time" :: ch0 :: rest
            rows := (List.range c.raw.times.length).map (fun i =>
              some (c.raw.times.getD i 0) ::
                ((ch0 :: rest).map c.raw.channel_samples).map
                  (fun row => some (row.getD i 0))) } := by
    unfold EDFConverter.to_csv
    rw [hget]
    rfl
  have hjson : c.to_json (some (ch0 :: rest)) false =
      .ok { metadata := none
            times := c.raw.times
            channels := (List.range (ch0 :: rest).length).map (fun i =>
              ((ch0 :: rest).getD i "",
                ((ch0 :: rest).map c.raw.channel_samples).getD i [])) } := by
    unfold EDFConverter.to_json
    rw [hget]
    rfl
  have hnpz : c.to_numpy (some (ch0 :: rest)) =
      .ok { data := (ch0 :: rest).map c.raw.channel_samples
            times := c.raw.times
            channel_names := ch0 :: rest
            sampling_rate := c.raw.sfreq } := by
    unfold EDFConverter.to_numpy
    rw [hget]
    rfl
  refine ⟨hget, ⟨_, hcsv, rfl, by simp, ?_⟩, ⟨_, hjson, rfl, by simp, ?_⟩,
    ⟨_, hnpz, rfl, rfl, rfl, ?_⟩⟩
  · intro i j hi hj
    rw [getD_map_range _ _ _ _ hi, List.getD_cons_succ,
      getD_map_of_lt _ _ _ (by simpa using hj) _ [],
      getD_map_of_lt _ _ _ (by simpa using hj) _ ""]
  · intro j hj
    rw [getD_map_range _ _ _ _ hj,
      getD_map_of_lt _ _ _ hj _ ""]
  · intro j hj
    rw [getD_map_of_lt _ _ _ hj _ ""]

theorem c5_witness :
    ((["B", "A"] : List String) ≠ []) ∧
    (∀ x ∈ (["B", "A"] : List String), x ∈ exampleConverter.raw.chNames) ∧
    (exampleConverter.get_data (some ["B", "A"]) =
        .ok (["B", "A"].map exampleConverter.raw.channel_samples,
          exampleConverter.raw.times) ∧
      (∃ doc, exampleConverter.to_csv (some ["B", "A"]) true = .ok doc ∧
        doc.header = "Time" :: ["B", "A"] ∧
        doc.rows.length = exampleConverter.raw.times.length ∧
        ∀ i j, i < exampleConverter.raw.times.length →
          j < (["B", "A"] : List String).length →
          (doc.rows.getD i []).getD (j + 1) none =
            some ((exampleConverter.raw.channel_samples
              ((["B", "A"] : List String).getD j "")).getD i 0)) ∧
      (∃ jdoc, exampleConverter.to_json (some ["B", "A"]) false = .ok jdoc ∧
        jdoc.times = exampleConverter.raw.times ∧
        jdoc.channels.length = (["B", "A"] : List String).length ∧
        ∀ j, j < (["B", "A"] : List String).length →
          jdoc.channels.getD j ("", []) =
            ((["B", "A"] : List String).getD j "",
              exampleConverter.raw.channel_samples
                ((["B", "A"] : List String).getD j ""))) ∧
      (∃ arch, exampleConverter.to_numpy (some ["B", "A"]) = .ok arch ∧
        arch.channel_names = ["B", "A"] ∧
        arch.times = exampleConverter.raw.times ∧
        arch.data = ["B", "A"].map exampleConverter.raw.channel_samples ∧
        ∀ j, j < (["B", "A"] : List String).length →
          arch.data.getD j [] =
            exampleConverter.raw.channel_samples
              ((["B", "A"] : List String).getD j ""))) :=
  ⟨by decide, by decide,
    c5_caller_order exampleConverter ["B", "A"] (by decide) (by decide)⟩

/-- C1 (amended): the store the code exposes is rectangular — every channel
of a loaded file, including lower-rate ones, occupies the full shared
time-axis length (`maxSpr × n_records`), because the loader expands
lower-rate channels; per-channel sample counts are not preserved. -/
theorem c1_amended_rectangular (f : EDFFile) (ci : ℕ)
    (h : ci < f.channels.length) :
    ((read_raw_edf f).data.getD ci []).length = (read_raw_edf f).nTimes := by
  have hdata : (read_raw_edf f).data.getD ci [] =
      (f.records.map (fun rec =>
        upsampleChunk (maxSpr f) (f.channels.getD ci default).samples_per_record
          ((rec.getD ci []).map (fun (d : ℤ) =>
            to_physical (f.channels.getD ci default) (d : ℚ))))).flatten := by
    exact getD_map_range _ _ _ _ h
  rw [hdata, List.length_flatten, List.map_map]
  have hfun : (List.length ∘ (fun rec : List (List ℤ) =>
      upsampleChunk (maxSpr f) (f.channels.getD ci default).samples_per_record
        ((rec.getD ci []).map (fun (d : ℤ) =>
          to_physical (f.channels.getD ci default) (d : ℚ))))) =
      fun _ => maxSpr f := by
    funext rec
    simp [upsampleChunk]
  rw [hfun]
  rw [show (f.records.map (fun _ => maxSpr f)) =
      List.replicate f.records.length (maxSpr f) from List.map_const _ _]
  rw [List.sum_replicate, smul_eq_mul]
  exact Nat.mul_comm _ _

theorem c1_amended_witness :
    (1 < exampleFile.channels.length) ∧
    (((read_raw_edf exampleFile).data.getD 1 []).length =
      (read_raw_edf exampleFile).nTimes) :=
  ⟨by decide, c1_amended_rectangular exampleFile 1 (by decide)⟩

/-- C1 (counterexample): on the spec's own worked example — channel B has
`samples_per_record = 2` over 3 records, so its own sample count is 6, as the
spec's `SignalStore` indeed keeps — the data the code stores and `get_data`
returns gives channel B 12 samples, the full time-axis length, not its own
count: the lower-rate channel has been expanded to match the time axis. -/
theorem c1_cex :
    (chanB.samples_per_record * exampleFile.records.length = 6) ∧
    (((specSignalStore exampleFile).channels.getD 1 default).2.length = 6) ∧
    (exampleConverter.get_data none =
      .ok (exampleConverter.raw.data, exampleConverter.raw.times)) ∧
    ((exampleConverter.raw.data.getD 1 []).length = 12) ∧
    ¬ ((exampleConverter.raw.data.getD 1 []).length =
        chanB.samples_per_record * exampleFile.records.length) :=
  ⟨by decide, by decide, rfl, by decide, by decide⟩

lemma to_csv_cell_numeric (c : EDFConverter) (it : Bool) (i j : ℕ)
    (hi : i < c.raw.times.length) (hj : j < c.raw.data.length) :
    ∃ doc, c.to_csv none it = .ok doc ∧
      (doc.rows.getD i []).getD ((if it then 1 else 0) + j) none =
        some ((c.raw.data.getD j []).getD i 0) := by
  cases it with
  | true =>
      have hcsv : c.to_csv none true =
          .ok { header := ["Time"] ++ c.raw.chNames
                rows := (List.range c.raw.times.length).map (fun i =>
                  [some (c.raw.times.getD i 0)] ++
                    c.raw.data.map (fun row => some (row.getD i 0))) } := rfl
      refine ⟨_, hcsv, ?_⟩
      rw [getD_map_range _ _ _ _ hi]
      have h1 : ((if true then 1 else 0) + j) = j + 1 := by
        simp [Nat.add_comm]
      rw [h1]
      rw [List.singleton_append, List.getD_cons_succ]
      exact getD_map_of_lt _ _ _ hj _ []
  | false =>
      have hcsv : c.to_csv none false =
          .ok { header := ([] : List String) ++ c.raw.chNames
                rows := (List.range c.raw.times.length).map (fun i =>
                  ([] : List (Option ℚ)) ++
                    c.raw.data.map (fun row => some (row.getD i 0))) } := rfl
      refine ⟨_, hcsv, ?_⟩
      rw [getD_map_range _ _ _ _ hi]
      have h0 : ((if false then 1 else 0) + j) = j := by simp
      rw [h0, List.nil_append]
      exact getD_map_of_lt _ _ _ hj _ []

/-- C6 (amended): `to_csv` writes a numeric cell — the value stored in the
rectangular array — for every channel at every time-axis position; it never
emits an empty/missing marker (no code path produces one). -/
theorem c6_amended_no_markers (c : EDFConverter) (it : Bool) (i j : ℕ)
    (hi : i < c.raw.times.length) (hj : j < c.raw.data.length) :
    ∃ doc, c.to_csv none it = .ok doc ∧
      (doc.rows.getD i []).getD ((if it then 1 else 0) + j) none =
        some ((c.raw.data.getD j []).getD i 0) :=
  to_csv_cell_numeric c it i j hi hj

theorem c6_amended_witness :
    (6 < exampleConverter.raw.times.length) ∧
    (1 < exampleConverter.raw.data.length) ∧
    (∃ doc, exampleConverter.to_csv none true = .ok doc ∧
      (doc.rows.getD 6 []).getD ((if true then 1 else 0) + 1) none =
        some ((exampleConverter.raw.data.getD 1 []).getD 6 0)) :=
  ⟨by decide, by decide,
    c6_amended_no_markers exampleConverter true 6 1 (by decide) (by decide)⟩

/-- C6 (counterexample): in the CSV of the spec's worked example, channel B's
column at time-axis position 6 — beyond B's own 6 samples — holds a numeric
cell (the expanded sample, 40), not an empty/missing marker. -/
theorem c6_cex :
    (chanB.samples_per_record * exampleFile.records.length = 6) ∧
    ∃ doc, exampleConverter.to_csv none true = .ok doc ∧
      ((doc.rows.getD 6 []).getD 2 none).isSome ∧
      ¬ ((doc.rows.getD 6 []).getD 2 none = none) ∧
      (doc.rows.getD 6 []).getD 2 none = some 40 := by
  obtain ⟨doc, hdoc, hcell⟩ :=
    to_csv_cell_numeric exampleConverter true 6 1 (by decide) (by decide)
  have hval : ((exampleConverter.raw.data.getD 1 []).getD 6 0 : ℚ) = 40 := by
    simp [exampleConverter, read_raw_edf, exampleFile, chanA, chanB, maxSpr,
      upsampleChunk, to_physical, List.range_succ]
  rw [hval] at hcell
  have hcell2 : (doc.rows.getD 6 []).getD 2 none = some 40 := hcell
  refine ⟨by decide, doc, hdoc, ?_, ?_, hcell2⟩
  · rw [hcell2]
    rfl
  · rw [hcell2]
    simp

/-- C7 (amended): the archive written by `to_numpy` holds exactly the four
named entries `data`, `times`, `channel_names`, `sampling_rate`; the exported
channels are stacked into the single rectangular `data` matrix rather than
written as one named array per channel. -/
theorem c7_amended_single_stack (c : EDFConverter) :
    ∃ arch, c.to_numpy none = .ok arch ∧
      arch.data = c.raw.data ∧ arch.times = c.raw.times ∧
      arch.channel_names = c.raw.chNames ∧ arch.sampling_rate = c.raw.sfreq ∧
      npz_entry_names = ["data", "times", "channel_names", "sampling_rate"] :=
  ⟨_, rfl, rfl, rfl, rfl, rfl, rfl⟩

/-- C7 (counterexample): on the worked example the archive's entry names are
the fixed four — no entry is named after a channel — and both channels,
despite their different `samples_per_record`, sit stacked in the single
rectangular `data` matrix of two equal-length rows. -/
theorem c7_cex :
    ∃ arch, exampleConverter.to_numpy none = .ok arch ∧
      npz_entry_names = ["data", "times", "channel_names", "sampling_rate"] ∧
      arch.channel_names = ["A", "B"] ∧
      ¬ (∀ x ∈ arch.channel_names, x ∈ npz_entry_names) ∧
      arch.data.length = 2 ∧
      arch.data.map List.length = [12, 12] :=
  ⟨_, rfl, rfl, by decide, by decide, by decide, by decide⟩

/-- C8: a failure inside any one exporter invocation — a CSV, JSON, or
array-archive destination that is not writable, or an invalid filter —
leaves the converter, hence the already-built store, unchanged, and a
subsequent export of another format on the same object still succeeds,
reading only the stored data with no re-decode of the file. -/
theorem c8_export_failure_frame (c : EDFConverter) (chs : Option (List String))
    (it im : Bool) (h : 1 ≤ c.raw.nTimes) :
    ((c.to_csv_run chs it false).2 = c) ∧
    (∀ doc, (c.to_csv_run chs it false).1 ≠ .ok doc) ∧
    (∃ j, ((c.to_csv_run chs it false).2).to_json none true = .ok j) ∧
    (((c.to_csv_run chs it false).2).to_json none true =
      c.to_json none true) ∧
    ((c.to_json_run chs im false).2 = c) ∧
    (∀ jd, (c.to_json_run chs im false).1 ≠ .ok jd) ∧
    (∃ arch, ((c.to_json_run chs im false).2).to_numpy none = .ok arch) ∧
    (((c.to_json_run chs im false).2).to_numpy none = c.to_numpy none) ∧
    ((c.to_numpy_run chs false).2 = c) ∧
    (∀ arch, (c.to_numpy_run chs false).1 ≠ .ok arch) ∧
    (∃ doc, ((c.to_numpy_run chs false).2).to_csv none it = .ok doc) ∧
    (((c.to_numpy_run chs false).2).to_csv none it =
      c.to_csv none it) := by
  have hstate_csv : (c.to_csv_run chs it false).2 = c := by
    unfold EDFConverter.to_csv_run
    cases hc : c.to_csv chs it <;> simp
  have hfail_csv : ∀ doc, (c.to_csv_run chs it false).1 ≠ .ok doc := by
    intro doc
    unfold EDFConverter.to_csv_run
    cases hc : c.to_csv chs it <;> simp
  have hstate_json : (c.to_json_run chs im false).2 = c := by
    unfold EDFConverter.to_json_run
    cases hc : c.to_json chs im <;> simp
  have hfail_json : ∀ jd, (c.to_json_run chs im false).1 ≠ .ok jd := by
    intro jd
    unfold EDFConverter.to_json_run
    cases hc : c.to_json chs im <;> simp
  have hstate_npz : (c.to_numpy_run chs false).2 = c := by
    unfold EDFConverter.to_numpy_run
    cases hc : c.to_numpy chs <;> simp
  have hfail_npz : ∀ arch, (c.to_numpy_run chs false).1 ≠ .ok arch := by
    intro arch
    unfold EDFConverter.to_numpy_run
    cases hc : c.to_numpy chs <;> simp
  have hjson : ∃ j, c.to_json none true = .ok j := by
    have hne : ¬ c.raw.nTimes = 0 := by omega
    unfold EDFConverter.to_json EDFConverter.get_info
    rw [if_neg hne]
    exact ⟨_, rfl⟩
  have hnpz_ok : ∃ arch, c.to_numpy none = .ok arch := ⟨_, rfl⟩
  have hcsv_ok : ∃ doc, c.to_csv none it = .ok doc := ⟨_, rfl⟩
  exact ⟨hstate_csv, hfail_csv,
    by rw [hstate_csv]; exact hjson, by rw [hstate_csv],
    hstate_json, hfail_json,
    by rw [hstate_json]; exact hnpz_ok, by rw [hstate_json],
    hstate_npz, hfail_npz,
    by rw [hstate_npz]; exact hcsv_ok, by rw [hstate_npz]⟩

theorem c8_witness :
    (1 ≤ exampleConverter.raw.nTimes) ∧
    (((exampleConverter.to_csv_run none true false).2 = exampleConverter) ∧
     (∀ doc, (exampleConverter.to_csv_run none true false).1 ≠ .ok doc) ∧
     (∃ j, ((exampleConverter.to_csv_run none true false).2).to_json none true
        = .ok j) ∧
     (((exampleConverter.to_csv_run none true false).2).to_json none true =
       exampleConverter.to_json none true) ∧
     ((exampleConverter.to_json_run none true false).2 = exampleConverter) ∧
     (∀ jd, (exampleConverter.to_json_run none true false).1 ≠ .ok jd) ∧
     (∃ arch, ((exampleConverter.to_json_run none true false).2).to_numpy none
        = .ok arch) ∧
     (((exampleConverter.to_json_run none true false).2).to_numpy none =
       exampleConverter.to_numpy none) ∧
     ((exampleConverter.to_numpy_run none false).2 = exampleConverter) ∧
     (∀ arch, (exampleConverter.to_numpy_run none false).1 ≠ .ok arch) ∧
     (∃ doc, ((exampleConverter.to_numpy_run none false).2).to_csv none true
        = .ok doc) ∧
     (((exampleConverter.to_numpy_run none false).2).to_csv none true =
       exampleConverter.to_csv none true)) :=
  ⟨by decide,
    c8_export_failure_frame exampleConverter none true true (by decide)⟩
